import Mathlib

/-!
Verification of the authdemo event-sourced workflow backend.

Shallow embedding of
- `src/app/services/event_writer.py` (event store: write, retrieval, fold),
- `src/app/services/workflows.py` (workflow state machine: transition table,
  confirm / reject / correct handlers),
- `src/app/security/authorization.py` (ABAC policy engine).

Python dictionaries are embedded as association lists of JSON-like values;
UUIDs and timestamps are embedded as natural numbers (identity of values is
all the code depends on).  Nondeterministic inputs of the code (fresh
UUIDs from uuid4, the clock) are passed as explicit parameters.
-/

namespace AuthDemo

/-- JSON-like payload values stored in event payloads (Python dict values). -/
inductive Value where
  | vNull : Value
  | vBool : Bool → Value
  | vNat : Nat → Value
  | vStr : String → Value
  | vArr : List Value → Value
  | vObj : List (String × Value) → Value

/-- A Python dict embedded as an insertion-ordered association list with
unique keys (the operations below preserve uniqueness). -/
abbrev Dict := List (String × Value)

/-- `d[k] = v` on a Python dict: replace the value at `k` in place if the key
exists, otherwise append the binding at the end. -/
def dictSet (d : Dict) (k : String) (v : Value) : Dict :=
  match d with
  | [] => [(k, v)]
  | (k', v') :: rest =>
    if k' = k then (k', v) :: rest else (k', v') :: dictSet rest k v

/-- `d.get(k)` on a Python dict: the first (unique) binding of `k`. -/
def dictGet (d : Dict) (k : String) : Option Value :=
  match d with
  | [] => none
  | (k', v') :: rest => if k' = k then some v' else dictGet rest k

/-- `d.update(p)` on Python dicts: set every binding of `p` in order. -/
def dictUpdate (d : Dict) (p : Dict) : Dict :=
  p.foldl (fun acc kv => dictSet acc kv.1 kv.2) d

/-- Python `value == 0` (true for the int `0` and for `False`, which compares
equal to `0` in Python; used by the `event_count` check in
`workflows.py::_get_current_state`). -/
def pyEqZero : Value → Bool
  | .vNat 0 => true
  | .vBool false => true
  | _ => false

/-- A stored event row (`app/models/event.py::Event`, restricted to the
columns the core reads).  UUIDs and timestamps are embedded as naturals. -/
structure Event where
  event_id : Nat
  entity_id : Nat
  entity_type : String
  event_type : String
  event_category : String
  payload : Dict
  previous_payload : Option Dict
  actor_id : Nat
  actor_role : String
  actor_username : String
  correlation_id : Option Nat
  causation_id : Option Nat
  timestamp : Nat

/-- The event store.  The list holds the rows in the order they were
appended; since the writer stamps each append with the current clock, this
is also the ascending-timestamp order in which
`get_events_for_entity` returns an entity's rows. -/
abbrev EventStore := List Event

/-- `event_writer.py::EventWriteRequest` (the pydantic model). -/
structure EventWriteRequest where
  entity_id : Nat
  entity_type : String
  event_type : String
  payload : Dict
  actor_id : Nat
  actor_role : String
  actor_username : String
  correlation_id : Option Nat
  causation_id : Option Nat
  context : Option Dict

/-- The pydantic `validate_event_type` check on `EventWriteRequest`:
the event type must be non-empty and split on `.` into exactly two parts. -/
def validEventTypeFormat (v : String) : Bool :=
  v ≠ "" && (v.splitOn ".").length == 2

/-- `event_writer.py::EventWriteResult`. -/
structure EventWriteResult where
  event_id : Nat
  entity_id : Nat
  event_type : String
  timestamp : Nat
  success : Bool
  error_message : Option String
deriving DecidableEq, Repr

namespace EventWriter

/-- `EventWriter._EVENT_CATEGORIES`. -/
def _EVENT_CATEGORIES : List (String × String) :=
  [("data.created", "user"),
   ("data.submitted", "user"),
   ("data.confirmed", "user"),
   ("data.rejected", "user"),
   ("data.corrected", "correction"),
   ("data.cancelled", "user"),
   ("data.auto_validated", "system"),
   ("data.expired", "system"),
   ("user.created", "user"),
   ("user.role_changed", "user"),
   ("user.deactivated", "user")]

/-- `self._EVENT_CATEGORIES.get(event_type, CATEGORY_USER)`. -/
def categoryOf (event_type : String) : String :=
  (_EVENT_CATEGORIES.lookup event_type).getD "user"

/-- The rows of one `(entity_id, entity_type)` pair, ascending timestamp. -/
def entityRows (store : EventStore) (entity_id : Nat) (entity_type : String) :
    List Event :=
  store.filter (fun e => e.entity_id == entity_id && e.entity_type == entity_type)

/-- `EventWriter.get_events_for_entity`: the entity's rows in ascending
timestamp order, capped at `limit` (the Python parameter defaults to 100). -/
def get_events_for_entity (store : EventStore) (entity_id : Nat)
    (entity_type : String) (limit : Nat) : List Event :=
  (entityRows store entity_id entity_type).take limit

/-- The loop body of `get_entity_current_state`: record the event's
timestamp under `last_event_at`, then merge the payload into the
accumulator. -/
def foldStep (acc : Dict) (e : Event) : Dict :=
  dictUpdate (dictSet acc "last_event_at" (.vNat e.timestamp)) e.payload

/-- `EventWriter.get_entity_current_state`: fold the entity's events (as
returned by `get_events_for_entity` with its default `limit=100`) into a
state dictionary seeded with the entity metadata. -/
def get_entity_current_state (store : EventStore) (entity_id : Nat)
    (entity_type : String) : Dict :=
  let events := get_events_for_entity store entity_id entity_type 100
  let init : Dict :=
    [("entity_id", .vStr (toString entity_id)),
     ("entity_type", .vStr entity_type),
     ("event_count", .vNat events.length),
     ("last_event_at", .vNull)]
  events.foldl foldStep init

/-- SQLAlchemy `Result.scalar_one_or_none()`: `none` on zero rows, the row
on exactly one, and a `MultipleResultsFound` exception on two or more. -/
def scalarOneOrNone : List Event → Except String (Option Event)
  | [] => .ok none
  | [e] => .ok (some e)
  | _ :: _ :: _ =>
    .error "Multiple rows were found when exactly one or none was required"

/-- `EventWriter._validate_correction` composed into
`EventWriter._validate_event`: for a `correction`-category event, fetch the
entity's rows ordered by timestamp descending and take exactly-one-or-none.
Every branch of the correction path raises: no row raises
`EventWriteError`, two or more rows raise `MultipleResultsFound` from
`scalar_one_or_none`, and on exactly one row the assignment
`request.previous_payload = previous_event.payload` raises `ValueError`
because the pydantic model `EventWriteRequest` declares no
`previous_payload` field (pydantic v2, default config, rejects setting an
undeclared attribute).  Returns the `previous_payload` to stamp on the
event — in this code always `none`, matching
`getattr(request, "previous_payload", None)` on an attribute that can
never be set. -/
def _validate_event (store : EventStore) (request : EventWriteRequest) :
    Except String (Option Dict) :=
  if categoryOf request.event_type = "correction" then
    match scalarOneOrNone (entityRows store request.entity_id request.entity_type).reverse with
    | .error msg => .error msg
    | .ok none =>
      .error ("Cannot correct non-existent entity: " ++ toString request.entity_id)
    | .ok (some _) =>
      .error "EventWriteRequest object has no field previous_payload"
  else
    .ok none

/-- `EventWriter._create_event`: build the row from the request, a fresh
UUID and the write-time clock. -/
def _create_event (request : EventWriteRequest) (previous_payload : Option Dict)
    (fresh_id now : Nat) : Event :=
  { event_id := fresh_id
    entity_id := request.entity_id
    entity_type := request.entity_type
    event_type := request.event_type
    event_category := categoryOf request.event_type
    payload := request.payload
    previous_payload := previous_payload
    actor_id := request.actor_id
    actor_role := request.actor_role
    actor_username := request.actor_username
    correlation_id := request.correlation_id
    causation_id := request.causation_id
    timestamp := now }

/-- `EventWriter.write`: validate, then durably append.  A validation
exception is caught, the session rolled back (the store is unchanged) and a
`success=false` result returned with the exception text; otherwise the row
is appended and a `success=true` result returned. -/
def write (store : EventStore) (request : EventWriteRequest)
    (fresh_id now : Nat) : EventWriteResult × EventStore :=
  match _validate_event store request with
  | .error msg =>
    ({ event_id := fresh_id
       entity_id := request.entity_id
       event_type := request.event_type
       timestamp := now
       success := false
       error_message := some msg }, store)
  | .ok previous_payload =>
    let event := _create_event request previous_payload fresh_id now
    ({ event_id := event.event_id
       entity_id := event.entity_id
       event_type := event.event_type
       timestamp := event.timestamp
       success := true
       error_message := none }, store ++ [event])

end EventWriter

/-- `workflows.py::DataEntryState`. -/
inductive DataEntryState where
  | draft
  | submitted
  | confirmed
  | rejected
  | corrected
  | cancelled
deriving DecidableEq, Repr

/-- The string value of a `DataEntryState` member (it is a `str` enum, and
is serialized into payloads as this string). -/
def DataEntryState.toStr : DataEntryState → String
  | .draft => "draft"
  | .submitted => "submitted"
  | .confirmed => "confirmed"
  | .rejected => "rejected"
  | .corrected => "corrected"
  | .cancelled => "cancelled"

/-- `DataEntryState(s)` on a string: the member with that value, or a
`ValueError` (`none`) when no member has it. -/
def DataEntryState.ofStr (s : String) : Option DataEntryState :=
  if s = "draft" then some .draft
  else if s = "submitted" then some .submitted
  else if s = "confirmed" then some .confirmed
  else if s = "rejected" then some .rejected
  else if s = "corrected" then some .corrected
  else if s = "cancelled" then some .cancelled
  else none

/-- `workflows.py::StateTransition` (the source's `allowed` field is `True`
on every row and never read; it is kept for fidelity). -/
structure StateTransition where
  from_state : DataEntryState
  to_state : DataEntryState
  event_type : String
  required_role : String
  allowed : Bool
deriving DecidableEq, Repr

/-- `workflows.py::STATE_TRANSITIONS`: the nine legal
`(from-state, event-type)` rows. -/
def STATE_TRANSITIONS : List ((DataEntryState × String) × StateTransition) :=
  [((.draft, "data.submitted"),
    ⟨.draft, .submitted, "data.submitted", "operator", true⟩),
   ((.submitted, "data.confirmed"),
    ⟨.submitted, .confirmed, "data.confirmed", "supervisor", true⟩),
   ((.submitted, "data.rejected"),
    ⟨.submitted, .rejected, "data.rejected", "supervisor", true⟩),
   ((.submitted, "data.cancelled"),
    ⟨.submitted, .cancelled, "data.cancelled", "operator", true⟩),
   ((.confirmed, "data.corrected"),
    ⟨.confirmed, .corrected, "data.corrected", "supervisor", true⟩),
   ((.rejected, "data.corrected"),
    ⟨.rejected, .corrected, "data.corrected", "supervisor", true⟩),
   ((.rejected, "data.cancelled"),
    ⟨.rejected, .cancelled, "data.cancelled", "operator", true⟩),
   ((.corrected, "data.submitted"),
    ⟨.corrected, .submitted, "data.submitted", "supervisor", true⟩),
   ((.corrected, "data.confirmed"),
    ⟨.corrected, .confirmed, "data.confirmed", "supervisor", true⟩)]

/-- `STATE_TRANSITIONS[(state, event_type)]` as a partial lookup
(`key in STATE_TRANSITIONS` is `(lookupTransition ..).isSome`). -/
def lookupTransition (state : DataEntryState) (event_type : String) :
    Option StateTransition :=
  STATE_TRANSITIONS.lookup (state, event_type)

/-- `workflows.py::DataEntryCreateRequest`. -/
structure DataEntryCreateRequest where
  data : Dict
  entry_type : String
  actor_id : Nat
  actor_role : String
  actor_username : String

/-- `workflows.py::DataEntryConfirmRequest`. -/
structure DataEntryConfirmRequest where
  entry_id : Nat
  confirmation_note : Option String
  actor_id : Nat
  actor_role : String
  actor_username : String

/-- `workflows.py::DataEntryRejectRequest` (the validated pydantic model;
`rejection_reason` is a required plain `str`, so it is present here but may
be empty). -/
structure DataEntryRejectRequest where
  entry_id : Nat
  rejection_reason : String
  actor_id : Nat
  actor_role : String
  actor_username : String

/-- The raw field set of an incoming reject call before pydantic
validation: every field may be absent. -/
structure RawRejectRequest where
  entry_id : Option Nat
  rejection_reason : Option String
  actor_id : Option Nat
  actor_role : Option String
  actor_username : Option String

/-- Pydantic validation of `DataEntryRejectRequest`: every field is
declared `Field(...)` (required, no `min_length`), so construction fails
exactly when some field is absent; an empty string is a valid `str`. -/
def DataEntryRejectRequest.validate (raw : RawRejectRequest) :
    Except String DataEntryRejectRequest :=
  match raw.entry_id, raw.rejection_reason, raw.actor_id, raw.actor_role,
      raw.actor_username with
  | some i, some reason, some aid, some role, some user =>
    .ok ⟨i, reason, aid, role, user⟩
  | _, _, _, _, _ => .error "Field required"

/-- `workflows.py::DataEntryCorrectRequest`. -/
structure DataEntryCorrectRequest where
  entry_id : Nat
  corrected_data : Dict
  fields_corrected : List String
  correction_note : String
  actor_id : Nat
  actor_role : String
  actor_username : String

/-- The distinguishable failure modes raised by the workflow handlers
before the store write.  The Python code raises `EventWriteError` with a
distinct message at each of these sites; the spec's error taxonomy names
them `EntityNotFoundError`, `InvalidTransitionError` and
`UnauthorizedRoleError`.  `invalidStateValue` is the `ValueError` raised by
`DataEntryState(state_str)` on an unrecognized folded state value. -/
inductive WorkflowError where
  | entityNotFound (entry_id : Nat)
  | invalidTransition (current : DataEntryState) (event_type : String)
  | unauthorizedRole (actor_role : String) (required_role : String)
  | invalidStateValue (value : Value)

namespace WorkflowHandler

/-- `WorkflowHandler._get_current_state`: fold the entry's events, fail as
not-found when the folded `event_count` is `0`, otherwise read the folded
`state` value (defaulting to `draft`) back into the enum. -/
def _get_current_state (store : EventStore) (entry_id : Nat) :
    Except WorkflowError DataEntryState :=
  let d := EventWriter.get_entity_current_state store entry_id "data_entry"
  if pyEqZero ((dictGet d "event_count").getD (.vNat 0)) then
    .error (.entityNotFound entry_id)
  else
    match dictGet d "state" with
    | none => .ok .draft
    | some (.vStr s) =>
      match DataEntryState.ofStr s with
      | some st => .ok st
      | none => .error (.invalidStateValue (.vStr s))
    | some v => .error (.invalidStateValue v)

/-- `WorkflowHandler._get_current_payload`: fold the entry's events, fail
as not-found when the folded `event_count` is `0`, otherwise return the
folded value under the `data` key (the empty dict when absent). -/
def _get_current_payload (store : EventStore) (entry_id : Nat) :
    Except WorkflowError Value :=
  let d := EventWriter.get_entity_current_state store entry_id "data_entry"
  if pyEqZero ((dictGet d "event_count").getD (.vNat 0)) then
    .error (.entityNotFound entry_id)
  else
    .ok ((dictGet d "data").getD (.vObj []))

/-- The value a `str | None` field takes inside a payload dict. -/
def optStr : Option String → Value
  | none => .vNull
  | some s => .vStr s

/-- `WorkflowHandler.create_data_entry`: write the initial `data.created`
event for a fresh entity id, carrying the data, the entry type and
`state=draft`.  `fresh_entry_id`, `fresh_event_id`, `fresh_corr_id` and
`now` stand for the `uuid4()` / clock calls. -/
def create_data_entry (store : EventStore) (request : DataEntryCreateRequest)
    (fresh_entry_id fresh_event_id fresh_corr_id now : Nat) :
    EventWriteResult × EventStore :=
  EventWriter.write store
    { entity_id := fresh_entry_id
      entity_type := "data_entry"
      event_type := "data.created"
      payload :=
        [("data", .vObj request.data),
         ("entry_type", .vStr request.entry_type),
         ("state", .vStr DataEntryState.draft.toStr)]
      actor_id := request.actor_id
      actor_role := request.actor_role
      actor_username := request.actor_username
      correlation_id := some fresh_corr_id
      causation_id := none
      context := none }
    fresh_event_id now

/-- `WorkflowHandler.confirm_entry`: fold the current state, require the
`(state, "data.confirmed")` row of the transition table, require the row's
role or `admin`, then write the `data.confirmed` event. -/
def confirm_entry (store : EventStore) (request : DataEntryConfirmRequest)
    (fresh_event_id fresh_corr_id now : Nat) :
    Except WorkflowError (EventWriteResult × EventStore) :=
  match _get_current_state store request.entry_id with
  | .error e => .error e
  | .ok current_state =>
  match lookupTransition current_state "data.confirmed" with
  | none => .error (.invalidTransition current_state "data.confirmed")
  | some transition =>
    if transition.required_role ≠ request.actor_role ∧ request.actor_role ≠ "admin" then
      .error (.unauthorizedRole request.actor_role transition.required_role)
    else
      .ok (EventWriter.write store
        { entity_id := request.entry_id
          entity_type := "data_entry"
          event_type := "data.confirmed"
          payload :=
            [("state", .vStr DataEntryState.confirmed.toStr),
             ("confirmed_by", .vStr request.actor_username),
             ("confirmation_note", optStr request.confirmation_note)]
          actor_id := request.actor_id
          actor_role := request.actor_role
          actor_username := request.actor_username
          correlation_id := some fresh_corr_id
          causation_id := none
          context := none }
        fresh_event_id now)

/-- `WorkflowHandler.reject_entry`: fold the current state, require the
`(state, "data.rejected")` row of the transition table, require the row's
role or `admin`, then write the `data.rejected` event carrying the
rejection reason. -/
def reject_entry (store : EventStore) (request : DataEntryRejectRequest)
    (fresh_event_id fresh_corr_id now : Nat) :
    Except WorkflowError (EventWriteResult × EventStore) :=
  match _get_current_state store request.entry_id with
  | .error e => .error e
  | .ok current_state =>
  match lookupTransition current_state "data.rejected" with
  | none => .error (.invalidTransition current_state "data.rejected")
  | some transition =>
    if transition.required_role ≠ request.actor_role ∧ request.actor_role ≠ "admin" then
      .error (.unauthorizedRole request.actor_role transition.required_role)
    else
      .ok (EventWriter.write store
        { entity_id := request.entry_id
          entity_type := "data_entry"
          event_type := "data.rejected"
          payload :=
            [("state", .vStr DataEntryState.rejected.toStr),
             ("rejected_by", .vStr request.actor_username),
             ("rejection_reason", .vStr request.rejection_reason)]
          actor_id := request.actor_id
          actor_role := request.actor_role
          actor_username := request.actor_username
          correlation_id := some fresh_corr_id
          causation_id := none
          context := none }
        fresh_event_id now)

/-- `WorkflowHandler.correct_entry`: fold the current state and the current
`data` payload, require the `(state, "data.corrected")` row of the
transition table, require the row's role or `admin`, then write the
`data.corrected` event embedding the corrected fields and the
pre-correction payload under `previous_data`. -/
def correct_entry (store : EventStore) (request : DataEntryCorrectRequest)
    (fresh_event_id fresh_corr_id now : Nat) :
    Except WorkflowError (EventWriteResult × EventStore) :=
  match _get_current_state store request.entry_id with
  | .error e => .error e
  | .ok current_state =>
  match _get_current_payload store request.entry_id with
  | .error e => .error e
  | .ok previous_payload =>
  match lookupTransition current_state "data.corrected" with
  | none => .error (.invalidTransition current_state "data.corrected")
  | some transition =>
    if transition.required_role ≠ request.actor_role ∧ request.actor_role ≠ "admin" then
      .error (.unauthorizedRole request.actor_role transition.required_role)
    else
      .ok (EventWriter.write store
        { entity_id := request.entry_id
          entity_type := "data_entry"
          event_type := "data.corrected"
          payload :=
            [("state", .vStr DataEntryState.corrected.toStr),
             ("corrected_data", .vObj request.corrected_data),
             ("fields_corrected", .vArr (request.fields_corrected.map .vStr)),
             ("correction_note", .vStr request.correction_note),
             ("corrected_by", .vStr request.actor_username),
             ("previous_data", previous_payload)]
          actor_id := request.actor_id
          actor_role := request.actor_role
          actor_username := request.actor_username
          correlation_id := some fresh_corr_id
          causation_id := none
          context := none }
        fresh_event_id now)

end WorkflowHandler

/-- `authorization.py::Role` (a `str` enum). -/
inductive Role where
  | operator
  | supervisor
  | auditor
  | admin
deriving DecidableEq, Repr

/-- The string value of a `Role` member. -/
def Role.toStr : Role → String
  | .operator => "operator"
  | .supervisor => "supervisor"
  | .auditor => "auditor"
  | .admin => "admin"

/-- `Role(role)` on a string: the member with that value, or a `ValueError`
(`none`) when no member has it. -/
def Role.ofStr (s : String) : Option Role :=
  if s = "operator" then some .operator
  else if s = "supervisor" then some .supervisor
  else if s = "auditor" then some .auditor
  else if s = "admin" then some .admin
  else none

/-- `authorization.py::Scope`. -/
structure Scope where
  id : String
  resource : String
  action : String
  filter : Option String
  constraint : Option String
deriving DecidableEq, Repr

/-- `Scope.matches`: the scope applies to this resource and action. -/
def Scope.matches (s : Scope) (resource action : String) : Bool :=
  s.resource == resource && s.action == action

/-- `authorization.py::Permission` (one authorization question). -/
structure Permission where
  resource : String
  action : String
  resource_id : Option String
  owner_id : Option String
  resource_status : Option String
deriving DecidableEq, Repr

/-- `authorization.py::AccessDecision`. -/
structure AccessDecision where
  allowed : Bool
  reason : String
  matched_scope : Option String
deriving DecidableEq, Repr

namespace PolicyEngine

/-- `PolicyEngine._load_role_scopes`: the static role-to-scope map. -/
def _role_scopes : Role → List Scope
  | .operator =>
    [⟨"data:create", "data", "create", none, none⟩,
     ⟨"data:read:own", "data", "read", some "own", none⟩,
     ⟨"data:update:own", "data", "update", some "own", some "unconfirmed"⟩]
  | .supervisor =>
    [⟨"data:read:all", "data", "read", some "all", none⟩,
     ⟨"data:confirm", "data", "confirm", none, none⟩,
     ⟨"data:correct", "data", "correct", none, none⟩,
     ⟨"data:reject", "data", "reject", none, none⟩,
     ⟨"reports:read", "reports", "read", none, none⟩]
  | .auditor =>
    [⟨"data:read:all", "data", "read", some "all", none⟩,
     ⟨"audit:read", "audit", "read", none, none⟩,
     ⟨"reports:read", "reports", "read", none, none⟩,
     ⟨"events:read", "events", "read", none, none⟩,
     ⟨"users:read", "users", "read", none, none⟩]
  | .admin =>
    [⟨"users:manage", "users", "manage", none, none⟩,
     ⟨"roles:manage", "roles", "manage", none, none⟩,
     ⟨"system:configure", "system", "configure", none, none⟩,
     ⟨"health:read", "health", "read", none, none⟩,
     ⟨"metrics:read", "metrics", "read", none, none⟩,
     ⟨"data:read:all", "data", "read", some "all", none⟩,
     ⟨"audit:read", "audit", "read", none, none⟩,
     ⟨"events:read", "events", "read", none, none⟩]

/-- `PolicyEngine._evaluate_filters_and_constraints`: the `own` filter
requires `owner_id` to be present in the request (presence only — the
function receives no caller identity to compare against), the `all` filter
always passes, and the `unconfirmed` constraint requires
`resource_status == "unconfirmed"`. -/
def _evaluate_filters_and_constraints (scope : Scope) (permission : Permission) :
    Bool :=
  if scope.filter = some "own" ∧ permission.owner_id = none then
    false
  else if scope.constraint = some "unconfirmed" ∧
      permission.resource_status ≠ some "unconfirmed" then
    false
  else
    true

/-- The `ValueError` raised by `Role(role)` at evaluation time on a string
that is not a member value (the spec's `UnknownRoleError`). -/
inductive EvalError where
  | unknownRole (role : String)
deriving DecidableEq, Repr

/-- `PolicyEngine.evaluate`: admin bypass, role-scope lookup, scope
matching against the request and the granted scope ids, then
first-satisfying-scope filter/constraint evaluation; default deny.  The
evaluation depends only on `(role, scopes, permission)` — the engine holds
no caller identity. -/
def evaluate (role : String) (scopes : List String) (permission : Permission) :
    Except EvalError AccessDecision :=
  if role = "admin" then
    .ok ⟨true, "Admin role has all permissions", some "admin:all"⟩
  else
    match Role.ofStr role with
    | none => .error (.unknownRole role)
    | some r =>
      let role_scopes := _role_scopes r
      if role_scopes.isEmpty then
        .ok ⟨false, "Role " ++ role ++ " has no defined scopes", none⟩
      else
        let matching_scopes := role_scopes.filter
          (fun s => s.matches permission.resource permission.action &&
            scopes.contains s.id)
        if matching_scopes.isEmpty then
          .ok ⟨false,
            "No scope grants " ++ permission.resource ++ ":" ++
              permission.action ++ " for role " ++ role, none⟩
        else
          match matching_scopes.find?
              (fun s => _evaluate_filters_and_constraints s permission) with
          | some s => .ok ⟨true, "Access granted via scope " ++ s.id, some s.id⟩
          | none =>
            .ok ⟨false,
              "Scope filters or constraints not satisfied for " ++
                permission.resource ++ ":" ++ permission.action, none⟩

end PolicyEngine

/-! ## Specification-side helpers for the fold claims -/

/-- The value a payload dict writes for a key: the value at the key's last
occurrence (`none` when the payload does not carry the key). -/
def lastBinding : Dict → String → Option Value
  | [], _ => none
  | (k', v) :: rest, k =>
    match lastBinding rest k with
    | some w => some w
    | none => if k' = k then some v else none

/-- The value written for a key by the latest event of the sequence that
carries the key (`none` when no event carries it). -/
def lastWritten : List Event → String → Option Value
  | [], _ => none
  | e :: rest, k =>
    match lastWritten rest k with
    | some w => some w
    | none => lastBinding e.payload k

/-! ## Lemmas about dict merging and the event fold -/

theorem dictGet_dictSet (d : Dict) (k' k : String) (v : Value) :
    dictGet (dictSet d k' v) k = if k' = k then some v else dictGet d k := by
  induction d with
  | nil => simp [dictSet, dictGet]
  | cons a rest ih =>
    obtain ⟨ka, va⟩ := a
    by_cases hak : ka = k'
    · subst hak
      simp only [dictSet, if_pos rfl, dictGet]
      by_cases hkk : ka = k
      · subst hkk; simp
      · simp [hkk, dictGet]
    · simp only [dictSet, if_neg hak, dictGet]
      by_cases hk2 : ka = k
      · subst hk2
        have hne : ¬ (k' = ka) := fun h => hak h.symm
        simp [hne]
      · simp [hk2, ih]

theorem dictGet_dictUpdate (p : Dict) (d : Dict) (k : String) :
    dictGet (dictUpdate d p) k =
      match lastBinding p k with
      | some w => some w
      | none => dictGet d k := by
  induction p generalizing d with
  | nil => simp [dictUpdate, lastBinding]
  | cons a rest ih =>
    obtain ⟨ka, va⟩ := a
    show dictGet (dictUpdate (dictSet d ka va) rest) k = _
    rw [ih]
    cases hrest : lastBinding rest k with
    | some w => simp [lastBinding, hrest]
    | none =>
      simp only [lastBinding, hrest, dictGet_dictSet]
      by_cases hk : ka = k <;> simp [hk]

theorem dictGet_foldLoop (events : List Event) (acc : Dict) (k : String)
    (hk : k ≠ "last_event_at") :
    dictGet (events.foldl EventWriter.foldStep acc) k =
      match lastWritten events k with
      | some w => some w
      | none => dictGet acc k := by
  induction events generalizing acc with
  | nil => simp [lastWritten]
  | cons e rest ih =>
    show dictGet (rest.foldl EventWriter.foldStep (EventWriter.foldStep acc e)) k = _
    rw [ih]
    cases hrest : lastWritten rest k with
    | some w => simp [lastWritten, hrest]
    | none =>
      simp only [lastWritten, hrest, EventWriter.foldStep, dictGet_dictUpdate,
        dictGet_dictSet]
      cases hb : lastBinding e.payload k with
      | some w => simp
      | none =>
        have hne : ¬ ("last_event_at" = k) := fun h => hk h.symm
        simp [hne]

/-! ## Concrete scenario stores (built through the embedded code paths) -/

/-- A store holding one freshly created entry (entity 1, state `draft`),
written by `create_data_entry`. -/
def draftStore : EventStore :=
  (WorkflowHandler.create_data_entry []
    ⟨[("x", .vNat 1)], "t", 100, "operator", "op1"⟩ 1 2 3 10).2

/-- `draftStore` after the operator submit route's `data.submitted` write
(entity 1, state `submitted`). -/
def submittedStore : EventStore :=
  (EventWriter.write draftStore
    ⟨1, "data_entry", "data.submitted",
      [("state", .vStr "submitted"), ("submitted_note", .vNull)],
      100, "operator", "op1", none, none, none⟩ 6 12).2

/-! ## Theorems -/

/-- C5: for every role other than admin and every permission request,
evaluating the policy engine with an empty granted-scope list returns a
decision with `allowed = false` (default deny) — and no matched scope. -/
theorem policy_default_deny_empty_scopes (r : Role) (h : r ≠ .admin)
    (p : Permission) :
    (PolicyEngine.evaluate r.toStr [] p).map AccessDecision.allowed = .ok false ∧
    (PolicyEngine.evaluate r.toStr [] p).map AccessDecision.matched_scope = .ok none := by
  cases r
  case admin => exact absurd rfl h
  all_goals constructor <;>
    simp [PolicyEngine.evaluate, Role.toStr, Role.ofStr, PolicyEngine._role_scopes,
      List.filter, Except.map]

/-- Witness for C5: the operator role with no granted scopes is denied
`data:create`. -/
theorem policy_default_deny_empty_scopes_witness :
    (PolicyEngine.evaluate Role.operator.toStr []
      ⟨"data", "create", none, none, none⟩).map AccessDecision.allowed = .ok false :=
  (policy_default_deny_empty_scopes Role.operator (by decide)
    ⟨"data", "create", none, none, none⟩).1

/-- C6: for every permission request and every granted-scope list, the
policy engine evaluated with role `admin` returns
`allowed = true` and `matched_scope = "admin:all"`; the role-scope map and
the granted scopes are never consulted (the result is this constant). -/
theorem policy_admin_bypass (scopes : List String) (p : Permission) :
    PolicyEngine.evaluate "admin" scopes p =
      .ok ⟨true, "Admin role has all permissions", some "admin:all"⟩ := rfl

/-- C7: a scope filter `own` is evaluated as a presence check on the
request's `owner_id` only (the engine receives no caller identity to
compare against): with `owner_id` absent the check fails for any scope
with the `own` filter, for a scope with the `own` filter and no constraint
the check succeeds exactly when `owner_id` is present, and the spec's
scenario — operator holding `data:read:own`, request without `owner_id` —
is denied. -/
theorem policy_own_filter_presence_only :
    (∀ (sc : Scope) (p : Permission), sc.filter = some "own" →
      p.owner_id = none →
      PolicyEngine._evaluate_filters_and_constraints sc p = false) ∧
    (∀ (sc : Scope) (p : Permission), sc.filter = some "own" →
      sc.constraint = none →
      (PolicyEngine._evaluate_filters_and_constraints sc p = true ↔
        p.owner_id.isSome)) ∧
    PolicyEngine.evaluate "operator" ["data:read:own"]
        ⟨"data", "read", none, none, none⟩ =
      .ok ⟨false, "Scope filters or constraints not satisfied for data:read",
        none⟩ := by
  refine ⟨?_, ?_, rfl⟩
  · intro sc p hf ho
    simp [PolicyEngine._evaluate_filters_and_constraints, hf, ho]
  · intro sc p hf hc
    cases ho : p.owner_id <;>
      simp [PolicyEngine._evaluate_filters_and_constraints, hf, hc, ho]

/-- C4 (amended): in the state dict folded by `get_entity_current_state`,
for every key other than the reserved `last_event_at` the value written by
the latest replayed event carrying that key wins, and in particular the
folded `state` value is the `state` value of the last replayed event whose
payload carries a `state` key.  (For the key `last_event_at` the claim as
stated fails: the fold overwrites it with each event's timestamp before
merging, see the counterexample.) -/
theorem fold_last_writer_wins (store : EventStore) (entity_id : Nat)
    (entity_type : String) :
    (∀ k v, k ≠ "last_event_at" →
      lastWritten (EventWriter.get_events_for_entity store entity_id entity_type 100) k =
        some v →
      dictGet (EventWriter.get_entity_current_state store entity_id entity_type) k =
        some v) ∧
    (∀ v,
      lastWritten (EventWriter.get_events_for_entity store entity_id entity_type 100)
          "state" = some v →
      dictGet (EventWriter.get_entity_current_state store entity_id entity_type)
          "state" = some v) := by
  have main : ∀ k v, k ≠ "last_event_at" →
      lastWritten (EventWriter.get_events_for_entity store entity_id entity_type 100) k =
        some v →
      dictGet (EventWriter.get_entity_current_state store entity_id entity_type) k =
        some v := by
    intro k v hk hw
    simp only [EventWriter.get_entity_current_state]
    rw [dictGet_foldLoop _ _ _ hk, hw]
  exact ⟨main, fun v hw => main "state" v (by decide) hw⟩

/-- An event of entity 1 for the C4 counterexample store. -/
def c4mk (eid : Nat) (et : String) (p : Dict) (ts : Nat) : Event :=
  { event_id := eid, entity_id := 1, entity_type := "data_entry", event_type := et,
    event_category := "user", payload := p, previous_payload := none,
    actor_id := 5, actor_role := "operator", actor_username := "op1",
    correlation_id := none, causation_id := none, timestamp := ts }

/-- Two events of one entity; the first carries a `last_event_at` payload
key, the second does not. -/
def c4store : EventStore :=
  [c4mk 1 "data.created" [("state", .vStr "draft"), ("last_event_at", .vStr "x")] 10,
   c4mk 2 "data.submitted" [("state", .vStr "submitted")] 20]

/-- Counterexample to C4 as stated: for the key `last_event_at` the latest
event carrying it wrote the string `"x"`, but the fold reports the second
event's timestamp `20` — the fold re-sets `last_event_at` before merging
every payload, so the latest carrier does not win for this key. -/
theorem fold_last_writer_wins_counterexample :
    lastWritten (EventWriter.get_events_for_entity c4store 1 "data_entry" 100)
        "last_event_at" = some (.vStr "x") ∧
    dictGet (EventWriter.get_entity_current_state c4store 1 "data_entry")
        "last_event_at" = some (.vNat 20) ∧
    (Value.vNat 20 : Value) ≠ .vStr "x" :=
  ⟨rfl, rfl, fun h => Value.noConfusion h⟩

/-- Witness for C4 (amended): on the two-event store the folded `state` is
the `state` written by the latest event carrying that key. -/
theorem fold_last_writer_wins_witness :
    dictGet (EventWriter.get_entity_current_state c4store 1 "data_entry") "state" =
      some (.vStr "submitted") :=
  (fold_last_writer_wins c4store 1 "data_entry").2 _ rfl

/-- C10: the state fold replays at most the first 100 events of the entity
in ascending timestamp order (`get_entity_current_state` calls
`get_events_for_entity` with its default `limit=100`), so once an entity
has 100 stored events, any further appended events do not affect the
folded state dict — its `state`, payload keys and reported
`event_count` all stay those of the first 100 events. -/
theorem fold_reads_first_100_only (store extra : EventStore) (entity_id : Nat)
    (entity_type : String)
    (h : 100 ≤ (EventWriter.entityRows store entity_id entity_type).length) :
    EventWriter.get_entity_current_state (store ++ extra) entity_id entity_type =
      EventWriter.get_entity_current_state store entity_id entity_type := by
  have hrows : EventWriter.entityRows (store ++ extra) entity_id entity_type =
      EventWriter.entityRows store entity_id entity_type ++
        EventWriter.entityRows extra entity_id entity_type := by
    simp [EventWriter.entityRows, List.filter_append]
  have hevents :
      EventWriter.get_events_for_entity (store ++ extra) entity_id entity_type 100 =
        EventWriter.get_events_for_entity store entity_id entity_type 100 := by
    simp only [EventWriter.get_events_for_entity, hrows]
    exact List.take_append_of_le_length h
  simp only [EventWriter.get_entity_current_state, hevents]

/-- An event of entity 1 for the 100-event store. -/
def c10evt (i : Nat) : Event :=
  { event_id := i, entity_id := 1, entity_type := "data_entry",
    event_type := "data.submitted", event_category := "user",
    payload := [("state", .vStr "submitted"), ("n", .vNat i)],
    previous_payload := none, actor_id := 2, actor_role := "operator",
    actor_username := "op1", correlation_id := none, causation_id := none,
    timestamp := i }

/-- A store holding exactly 100 events of entity 1. -/
def c10store : EventStore := (List.range 100).map c10evt

/-- Witness for C10: appending a 101st event to a 100-event entity leaves
the folded state dict unchanged. -/
theorem fold_reads_first_100_only_witness :
    EventWriter.get_entity_current_state (c10store ++ [c10evt 100]) 1 "data_entry" =
      EventWriter.get_entity_current_state c10store 1 "data_entry" :=
  fold_reads_first_100_only c10store [c10evt 100] 1 "data_entry" (by decide)

/-- Witness for C7: the `own`-filtered read scope passes the check when
`owner_id` is present and fails when it is absent. -/
theorem policy_own_filter_presence_only_witness :
    PolicyEngine._evaluate_filters_and_constraints
        ⟨"data:read:own", "data", "read", some "own", none⟩
        ⟨"data", "read", none, some "u1", none⟩ = true ∧
    PolicyEngine._evaluate_filters_and_constraints
        ⟨"data:read:own", "data", "read", some "own", none⟩
        ⟨"data", "read", none, none, none⟩ = false :=
  ⟨(policy_own_filter_presence_only.2.1
      ⟨"data:read:own", "data", "read", some "own", none⟩
      ⟨"data", "read", none, some "u1", none⟩ rfl rfl).mpr rfl,
   policy_own_filter_presence_only.1
      ⟨"data:read:own", "data", "read", some "own", none⟩
      ⟨"data", "read", none, none, none⟩ rfl rfl⟩

/-! ## Lemmas about the workflow handlers -/

theorem state_err_of_no_rows (store : EventStore) (id : Nat)
    (h : EventWriter.entityRows store id "data_entry" = []) :
    WorkflowHandler._get_current_state store id = .error (.entityNotFound id) := by
  unfold WorkflowHandler._get_current_state EventWriter.get_entity_current_state
    EventWriter.get_events_for_entity
  rw [h]
  rfl

theorem payload_ok_of_state_ok (store : EventStore) (id : Nat)
    (st : DataEntryState) (hs : WorkflowHandler._get_current_state store id = .ok st) :
    WorkflowHandler._get_current_payload store id =
      .ok ((dictGet (EventWriter.get_entity_current_state store id "data_entry")
        "data").getD (.vObj [])) := by
  unfold WorkflowHandler._get_current_state at hs
  unfold WorkflowHandler._get_current_payload
  by_cases hz : pyEqZero ((dictGet
      (EventWriter.get_entity_current_state store id "data_entry")
      "event_count").getD (.vNat 0)) = true
  · rw [if_pos hz] at hs; exact absurd hs (by simp)
  · rw [if_neg hz]

/-- C1: each of `confirm_entry`, `reject_entry` and `correct_entry` returns
a write (an `.ok` outcome) only when the pair of the folded current state
and the operation's event type is a row of `STATE_TRANSITIONS`; and when
the folded state yields a pair absent from the table, the operation fails
with the invalid-transition error for exactly that pair — no event is
appended (an error outcome produces no new store). -/
theorem workflow_transition_table_gates_ops :
    (∀ store (req : DataEntryConfirmRequest) fid cid now out,
      WorkflowHandler.confirm_entry store req fid cid now = .ok out →
      ∃ st, WorkflowHandler._get_current_state store req.entry_id = .ok st ∧
        (lookupTransition st "data.confirmed").isSome) ∧
    (∀ store (req : DataEntryConfirmRequest) fid cid now st,
      WorkflowHandler._get_current_state store req.entry_id = .ok st →
      lookupTransition st "data.confirmed" = none →
      WorkflowHandler.confirm_entry store req fid cid now =
        .error (.invalidTransition st "data.confirmed")) ∧
    (∀ store (req : DataEntryRejectRequest) fid cid now out,
      WorkflowHandler.reject_entry store req fid cid now = .ok out →
      ∃ st, WorkflowHandler._get_current_state store req.entry_id = .ok st ∧
        (lookupTransition st "data.rejected").isSome) ∧
    (∀ store (req : DataEntryRejectRequest) fid cid now st,
      WorkflowHandler._get_current_state store req.entry_id = .ok st →
      lookupTransition st "data.rejected" = none →
      WorkflowHandler.reject_entry store req fid cid now =
        .error (.invalidTransition st "data.rejected")) ∧
    (∀ store (req : DataEntryCorrectRequest) fid cid now out,
      WorkflowHandler.correct_entry store req fid cid now = .ok out →
      ∃ st, WorkflowHandler._get_current_state store req.entry_id = .ok st ∧
        (lookupTransition st "data.corrected").isSome) ∧
    (∀ store (req : DataEntryCorrectRequest) fid cid now st,
      WorkflowHandler._get_current_state store req.entry_id = .ok st →
      lookupTransition st "data.corrected" = none →
      WorkflowHandler.correct_entry store req fid cid now =
        .error (.invalidTransition st "data.corrected")) := by
  refine ⟨?_, ?_, ?_, ?_, ?_, ?_⟩
  · intro store req fid cid now out h
    unfold WorkflowHandler.confirm_entry at h
    cases hs : WorkflowHandler._get_current_state store req.entry_id with
    | error e => rw [hs] at h; exact absurd h (by simp)
    | ok st =>
      rw [hs] at h
      dsimp only at h
      refine ⟨st, rfl, ?_⟩
      cases hl : lookupTransition st "data.confirmed" with
      | none => rw [hl] at h; exact absurd h (by simp)
      | some tr => simp
  · intro store req fid cid now st hs hl
    unfold WorkflowHandler.confirm_entry
    rw [hs]
    dsimp only
    rw [hl]
  · intro store req fid cid now out h
    unfold WorkflowHandler.reject_entry at h
    cases hs : WorkflowHandler._get_current_state store req.entry_id with
    | error e => rw [hs] at h; exact absurd h (by simp)
    | ok st =>
      rw [hs] at h
      dsimp only at h
      refine ⟨st, rfl, ?_⟩
      cases hl : lookupTransition st "data.rejected" with
      | none => rw [hl] at h; exact absurd h (by simp)
      | some tr => simp
  · intro store req fid cid now st hs hl
    unfold WorkflowHandler.reject_entry
    rw [hs]
    dsimp only
    rw [hl]
  · intro store req fid cid now out h
    unfold WorkflowHandler.correct_entry at h
    cases hs : WorkflowHandler._get_current_state store req.entry_id with
    | error e => rw [hs] at h; exact absurd h (by simp)
    | ok st =>
      rw [hs] at h
      dsimp only at h
      cases hp : WorkflowHandler._get_current_payload store req.entry_id with
      | error e => rw [hp] at h; exact absurd h (by simp)
      | ok pv =>
        rw [hp] at h
        dsimp only at h
        refine ⟨st, rfl, ?_⟩
        cases hl : lookupTransition st "data.corrected" with
        | none => rw [hl] at h; exact absurd h (by simp)
        | some tr => simp
  · intro store req fid cid now st hs hl
    unfold WorkflowHandler.correct_entry
    rw [hs]
    dsimp only
    rw [payload_ok_of_state_ok store req.entry_id st hs]
    dsimp only
    rw [hl]

/-- Witness for C1: confirming the freshly created (still `draft`) entry of
`draftStore` fails with the invalid-transition error for
`(draft, data.confirmed)`, which is not a table row. -/
theorem workflow_transition_table_gates_ops_witness :
    WorkflowHandler.confirm_entry draftStore ⟨1, none, 200, "supervisor", "sup1"⟩
        4 5 11 =
      .error (.invalidTransition .draft "data.confirmed") :=
  workflow_transition_table_gates_ops.2.1 draftStore
    ⟨1, none, 200, "supervisor", "sup1"⟩ 4 5 11 .draft rfl rfl

/-- C2: when the folded state admits the requested transition, each of
`confirm_entry`, `reject_entry` and `correct_entry` fails with the
unauthorized-role error whenever the actor's role is neither the table
row's required role nor `admin` (and nothing is appended), while an actor
whose role is `admin` always passes the role check (the operation reaches
the store write and returns `.ok`). -/
theorem workflow_role_gate :
    (∀ store (req : DataEntryConfirmRequest) fid cid now st tr,
      WorkflowHandler._get_current_state store req.entry_id = .ok st →
      lookupTransition st "data.confirmed" = some tr →
      tr.required_role ≠ req.actor_role → req.actor_role ≠ "admin" →
      WorkflowHandler.confirm_entry store req fid cid now =
        .error (.unauthorizedRole req.actor_role tr.required_role)) ∧
    (∀ store (req : DataEntryConfirmRequest) fid cid now st,
      WorkflowHandler._get_current_state store req.entry_id = .ok st →
      (lookupTransition st "data.confirmed").isSome → req.actor_role = "admin" →
      ∃ out, WorkflowHandler.confirm_entry store req fid cid now = .ok out) ∧
    (∀ store (req : DataEntryRejectRequest) fid cid now st tr,
      WorkflowHandler._get_current_state store req.entry_id = .ok st →
      lookupTransition st "data.rejected" = some tr →
      tr.required_role ≠ req.actor_role → req.actor_role ≠ "admin" →
      WorkflowHandler.reject_entry store req fid cid now =
        .error (.unauthorizedRole req.actor_role tr.required_role)) ∧
    (∀ store (req : DataEntryRejectRequest) fid cid now st,
      WorkflowHandler._get_current_state store req.entry_id = .ok st →
      (lookupTransition st "data.rejected").isSome → req.actor_role = "admin" →
      ∃ out, WorkflowHandler.reject_entry store req fid cid now = .ok out) ∧
    (∀ store (req : DataEntryCorrectRequest) fid cid now st tr,
      WorkflowHandler._get_current_state store req.entry_id = .ok st →
      lookupTransition st "data.corrected" = some tr →
      tr.required_role ≠ req.actor_role → req.actor_role ≠ "admin" →
      WorkflowHandler.correct_entry store req fid cid now =
        .error (.unauthorizedRole req.actor_role tr.required_role)) ∧
    (∀ store (req : DataEntryCorrectRequest) fid cid now st,
      WorkflowHandler._get_current_state store req.entry_id = .ok st →
      (lookupTransition st "data.corrected").isSome → req.actor_role = "admin" →
      ∃ out, WorkflowHandler.correct_entry store req fid cid now = .ok out) := by
  refine ⟨?_, ?_, ?_, ?_, ?_, ?_⟩
  · intro store req fid cid now st tr hs hl hr ha
    unfold WorkflowHandler.confirm_entry
    rw [hs]
    dsimp only
    rw [hl]
    simp [hr, ha]
  · intro store req fid cid now st hs hl ha
    unfold WorkflowHandler.confirm_entry
    rw [hs]
    dsimp only
    obtain ⟨tr, htr⟩ := Option.isSome_iff_exists.mp hl
    rw [htr]
    simp [ha]
  · intro store req fid cid now st tr hs hl hr ha
    unfold WorkflowHandler.reject_entry
    rw [hs]
    dsimp only
    rw [hl]
    simp [hr, ha]
  · intro store req fid cid now st hs hl ha
    unfold WorkflowHandler.reject_entry
    rw [hs]
    dsimp only
    obtain ⟨tr, htr⟩ := Option.isSome_iff_exists.mp hl
    rw [htr]
    simp [ha]
  · intro store req fid cid now st tr hs hl hr ha
    unfold WorkflowHandler.correct_entry
    rw [hs]
    dsimp only
    rw [payload_ok_of_state_ok store req.entry_id st hs]
    dsimp only
    rw [hl]
    simp [hr, ha]
  · intro store req fid cid now st hs hl ha
    unfold WorkflowHandler.correct_entry
    rw [hs]
    dsimp only
    rw [payload_ok_of_state_ok store req.entry_id st hs]
    dsimp only
    obtain ⟨tr, htr⟩ := Option.isSome_iff_exists.mp hl
    rw [htr]
    simp [ha]

/-- Witness for C2: the operator confirming the `submitted` entry of
`submittedStore` hits the unauthorized-role error (required role is
`supervisor`), while an admin confirming the same entry passes the role
check and reaches the write. -/
theorem workflow_role_gate_witness :
    WorkflowHandler.confirm_entry submittedStore ⟨1, none, 100, "operator", "op1"⟩
        7 8 13 =
      .error (.unauthorizedRole "operator" "supervisor") ∧
    (∃ out, WorkflowHandler.confirm_entry submittedStore
        ⟨1, none, 300, "admin", "root"⟩ 7 8 13 = .ok out) :=
  ⟨workflow_role_gate.1 submittedStore ⟨1, none, 100, "operator", "op1"⟩ 7 8 13
      .submitted ⟨.submitted, .confirmed, "data.confirmed", "supervisor", true⟩
      rfl rfl (by decide) (by decide),
   workflow_role_gate.2.1 submittedStore ⟨1, none, 300, "admin", "root"⟩ 7 8 13
      .submitted rfl rfl rfl⟩

/-- C8: for an entity identifier with zero stored `data_entry` events, each
of `confirm_entry`, `reject_entry` and `correct_entry` fails with the
entity-not-found error and appends nothing (an error outcome produces no
new store). -/
theorem ops_fail_entity_not_found (store : EventStore) (id : Nat)
    (h : EventWriter.entityRows store id "data_entry" = []) :
    (∀ (req : DataEntryConfirmRequest) fid cid now, req.entry_id = id →
      WorkflowHandler.confirm_entry store req fid cid now =
        .error (.entityNotFound id)) ∧
    (∀ (req : DataEntryRejectRequest) fid cid now, req.entry_id = id →
      WorkflowHandler.reject_entry store req fid cid now =
        .error (.entityNotFound id)) ∧
    (∀ (req : DataEntryCorrectRequest) fid cid now, req.entry_id = id →
      WorkflowHandler.correct_entry store req fid cid now =
        .error (.entityNotFound id)) := by
  refine ⟨?_, ?_, ?_⟩
  · intro req fid cid now hid
    unfold WorkflowHandler.confirm_entry
    rw [hid, state_err_of_no_rows store id h]
  · intro req fid cid now hid
    unfold WorkflowHandler.reject_entry
    rw [hid, state_err_of_no_rows store id h]
  · intro req fid cid now hid
    unfold WorkflowHandler.correct_entry
    rw [hid, state_err_of_no_rows store id h]

/-- Witness for C8: on the empty store all three operations report entity 1
as not found. -/
theorem ops_fail_entity_not_found_witness :
    WorkflowHandler.confirm_entry [] ⟨1, none, 5, "supervisor", "sup1"⟩ 6 7 8 =
      .error (.entityNotFound 1) ∧
    WorkflowHandler.reject_entry [] ⟨1, "bad", 5, "supervisor", "sup1"⟩ 6 7 8 =
      .error (.entityNotFound 1) ∧
    WorkflowHandler.correct_entry []
        ⟨1, [("x", .vNat 2)], ["x"], "fix", 5, "supervisor", "sup1"⟩ 6 7 8 =
      .error (.entityNotFound 1) :=
  ⟨(ops_fail_entity_not_found [] 1 rfl).1 _ 6 7 8 rfl,
   (ops_fail_entity_not_found [] 1 rfl).2.1 _ 6 7 8 rfl,
   (ops_fail_entity_not_found [] 1 rfl).2.2 _ 6 7 8 rfl⟩

/-- Every store write of a `data.corrected` event fails validation: zero
rows raise `EventWriteError`, one row reaches the pydantic `ValueError` on
the undeclared `previous_payload` attribute, and two or more rows raise
`MultipleResultsFound` from `scalar_one_or_none`. -/
theorem validate_correction_always_errors (store : EventStore)
    (request : EventWriteRequest) (h : request.event_type = "data.corrected") :
    ∃ msg, EventWriter._validate_event store request = .error msg := by
  unfold EventWriter._validate_event
  rw [h]
  rw [if_pos (show EventWriter.categoryOf "data.corrected" = "correction" from rfl)]
  cases hres : EventWriter.scalarOneOrNone
      (EventWriter.entityRows store request.entity_id request.entity_type).reverse with
  | error msg => exact ⟨msg, rfl⟩
  | ok o => cases o with
    | none => exact ⟨_, rfl⟩
    | some prev => exact ⟨_, rfl⟩

/-- A store holding exactly one `data_entry` row of entity 9 whose payload
carries `state=confirmed` (written through `EventWriter.write`).  A single
row is the one shape on which a correction's validation gets past
`scalar_one_or_none` — only to hit the pydantic `ValueError` on
`request.previous_payload`. -/
def correctableStore : EventStore :=
  (EventWriter.write []
    ⟨9, "data_entry", "data.created",
      [("data", .vObj [("x", .vNat 1)]), ("entry_type", .vStr "t"),
       ("state", .vStr "confirmed")],
      50, "operator", "op1", none, none, none⟩ 50 5).2

/-- The correction request of the C3 scenario. -/
def c3req : DataEntryCorrectRequest :=
  ⟨9, [("x", .vNat 2)], ["x"], "fix", 200, "supervisor", "sup1"⟩

/-- `submittedStore` after a supervisor confirms entry 1: the realistic
three-event history draft → submitted → confirmed, from which the spec's
correction workflow is supposed to proceed. -/
def confirmedChainStore : EventStore :=
  match WorkflowHandler.confirm_entry submittedStore
      ⟨1, some "ok", 201, "supervisor", "sup1"⟩ 14 15 16 with
  | .ok out => out.2
  | .error _ => submittedStore

/-- C3: no correction write ever succeeds in this code, against the spec
and the repository's own tests and docstrings.  Every `data.corrected`
store write fails validation — `event_writer.py:252` assigns
`request.previous_payload` on a pydantic model that declares no such
field, raising `ValueError` on the only row count (exactly one) that
`scalar_one_or_none` does not already reject — so `correct_entry` can only
return a `success = false` result with the store unchanged.  Evaluated
concretely on the three-event confirmed entity (where
`MultipleResultsFound` fires) and on the single-row entity (where the
pydantic `ValueError` fires): nothing is appended, no `previous_data`
snapshot is ever written. -/
theorem correction_write_always_fails :
    (∀ store (req : DataEntryCorrectRequest) fid cid now res store',
      WorkflowHandler.correct_entry store req fid cid now = .ok (res, store') →
      res.success = false ∧ store' = store) ∧
    WorkflowHandler.correct_entry confirmedChainStore
        ⟨1, [("x", .vNat 2)], ["x"], "fix", 200, "supervisor", "sup1"⟩ 90 91 20 =
      .ok (⟨90, 1, "data.corrected", 20, false,
        some "Multiple rows were found when exactly one or none was required"⟩,
        confirmedChainStore) ∧
    WorkflowHandler.correct_entry correctableStore c3req 90 91 14 =
      .ok (⟨90, 9, "data.corrected", 14, false,
        some "EventWriteRequest object has no field previous_payload"⟩,
        correctableStore) := by
  refine ⟨?_, rfl, rfl⟩
  intro store req fid cid now res store' h
  unfold WorkflowHandler.correct_entry at h
  cases hs : WorkflowHandler._get_current_state store req.entry_id with
  | error e => rw [hs] at h; exact absurd h (by simp)
  | ok st =>
    rw [hs] at h
    dsimp only at h
    cases hp : WorkflowHandler._get_current_payload store req.entry_id with
    | error e => rw [hp] at h; exact absurd h (by simp)
    | ok pv =>
      rw [hp] at h
      dsimp only at h
      cases hl : lookupTransition st "data.corrected" with
      | none => rw [hl] at h; exact absurd h (by simp)
      | some tr =>
        rw [hl] at h
        dsimp only at h
        by_cases hcond : tr.required_role ≠ req.actor_role ∧ req.actor_role ≠ "admin"
        · rw [if_pos hcond] at h; exact absurd h (by simp)
        · rw [if_neg hcond] at h
          injection h with h2
          obtain ⟨msg, hmsg⟩ := validate_correction_always_errors store
            { entity_id := req.entry_id, entity_type := "data_entry",
              event_type := "data.corrected",
              payload :=
                [("state", .vStr DataEntryState.corrected.toStr),
                 ("corrected_data", .vObj req.corrected_data),
                 ("fields_corrected", .vArr (req.fields_corrected.map .vStr)),
                 ("correction_note", .vStr req.correction_note),
                 ("corrected_by", .vStr req.actor_username),
                 ("previous_data", pv)],
              actor_id := req.actor_id, actor_role := req.actor_role,
              actor_username := req.actor_username,
              correlation_id := some cid, causation_id := none,
              context := none } rfl
          rw [EventWriter.write, hmsg] at h2
          dsimp only at h2
          injection h2 with hres hstore
          subst hstore
          exact ⟨by rw [← hres], rfl⟩

/-- Witness for C3: the universal failure statement applied at the
single-row entity, whose correction result the theorem itself computes. -/
theorem correction_write_always_fails_witness :
    (⟨90, 9, "data.corrected", 14, false,
      some "EventWriteRequest object has no field previous_payload"⟩ :
        EventWriteResult).success = false ∧
    correctableStore = correctableStore :=
  correction_write_always_fails.1 correctableStore c3req 90 91 14 _ _
    correction_write_always_fails.2.2

/-- C9 (amended): pydantic validation of a reject call requires every
declared field — in particular the rejection reason — to be present, and
nothing more: construction succeeds exactly when all five fields are
present, regardless of whether the reason string is empty. -/
theorem reject_validation_requires_presence_only (raw : RawRejectRequest) :
    (∃ req, DataEntryRejectRequest.validate raw = .ok req) ↔
      (raw.entry_id.isSome ∧ raw.rejection_reason.isSome ∧ raw.actor_id.isSome ∧
        raw.actor_role.isSome ∧ raw.actor_username.isSome) := by
  rcases raw with ⟨i, r, a, ro, u⟩
  cases i <;> cases r <;> cases a <;> cases ro <;> cases u <;>
    simp [DataEntryRejectRequest.validate]

/-- The validated reject request of the C9 scenario: its reason is the
empty string. -/
def c9req : DataEntryRejectRequest := ⟨1, "", 200, "supervisor", "sup1"⟩

/-- The event that `reject_entry submittedStore c9req 7 8 13` appends. -/
def c9evt : Event :=
  { event_id := 7, entity_id := 1, entity_type := "data_entry",
    event_type := "data.rejected", event_category := "user",
    payload :=
      [("state", .vStr "rejected"), ("rejected_by", .vStr "sup1"),
       ("rejection_reason", .vStr "")],
    previous_payload := none, actor_id := 200, actor_role := "supervisor",
    actor_username := "sup1", correlation_id := some 8, causation_id := none,
    timestamp := 13 }

/-- The result that `reject_entry submittedStore c9req 7 8 13` returns. -/
def c9res : EventWriteResult := ⟨7, 1, "data.rejected", 13, true, none⟩

/-- Counterexample to C9 as stated: a reject call whose reason is the empty
string passes request validation, and on a `submitted` entry the rejection
succeeds — a `data.rejected` event is written carrying the empty reason. -/
theorem reject_empty_reason_accepted_counterexample :
    DataEntryRejectRequest.validate
        ⟨some 1, some "", some 200, some "supervisor", some "sup1"⟩ = .ok c9req ∧
    c9req.rejection_reason = "" ∧
    WorkflowHandler.reject_entry submittedStore c9req 7 8 13 =
      .ok (c9res, submittedStore ++ [c9evt]) ∧
    c9res.success = true ∧
    c9evt.event_type = "data.rejected" :=
  ⟨rfl, rfl, rfl, rfl, rfl⟩

end AuthDemo
